import Mathlib

/-!
# gulp-tslint: the Linting Stage and the Reporting Stage

A shallow embedding of `src/index.js`.  The plugin is glue code between a
streaming build pipeline and two external collaborators (the lint engine and
the configuration resolver), so the embedding is effect-oriented:

* every observable action (a call of the resolver, a call of the engine, a
  call of a formatter, a `console.log`, an `emit`, the per-file callback) is
  recorded, in program order, in a trace;
* the mutable arrays `errorFiles` and `allFailures` of `report` are explicit
  state;
* a JavaScript exception is the `Except.error` result;
* the external collaborators (`JSON.parse`, `JSON.stringify`,
  `Buffer.toString`, the `rcloader` resolver, the `tslint` engine) are fields
  of an environment record `Env`; as in the description of the system they
  are taken to return (the engine and a caller-supplied reporter do not
  throw);
* a function value carries its kind (ordinary, async, generator, async
  generator), because `Object.prototype.toString` tells them apart and the
  helper `isFunction` compares its result with `[object Function]`.
-/

namespace GulpTslint

/-! ## Data model -/

/-- JavaScript values as far as the plugin inspects them (`options.emitError`). -/
inductive JsValue where
  | undefined
  | null
  | bool (b : Bool)
  | number (n : Int)
  | string (s : String)
  | object
  deriving DecidableEq, Repr

/-- Error values.  `pluginError p m` is `new PluginError(p, m)` of gulp-util,
`typeError` is the runtime error of reading a property of `undefined`,
`other` is any error object made elsewhere (the resolver, `JSON.parse`). -/
inductive JsError where
  | pluginError (plugin : String) (message : String)
  | typeError
  | other (name : String) (message : String)
  deriving DecidableEq, Repr

/-- A position of the engine: `{"position": 8, "line": 0, "character": 8}`.
Lines and characters start from 0; they are indices into a source text, so
they lie in the range where JavaScript number arithmetic is exact. -/
structure Position where
  position : Nat
  line : Nat
  character : Nat
  deriving DecidableEq, Repr

/-- One entry of the engine output (the comment above `tslintPlugin.report`). -/
structure Failure where
  name : String
  failure : String
  startPosition : Position
  endPosition : Position
  ruleName : String
  deriving DecidableEq, Repr

/-- The result object of `tslint.lint()`; the plugin reads `output` only. -/
structure LintResult where
  output : String
  deriving DecidableEq, Repr

/-- Contents of a vinyl file: `isNull()`, `isBuffer()`, `isStream()`. -/
inductive Contents where
  | null
  | buffer (bytes : List Nat)
  | stream
  deriving DecidableEq, Repr

/-- A vinyl file object, with the property `tslint` the Linting Stage adds
(`none` is an absent property). -/
structure File where
  path : String
  relative : String
  contents : Contents
  tslint : Option LintResult
  deriving DecidableEq, Repr

/-- The method `file.isNull()`. -/
def File.isNull (file : File) : Bool :=
  match file.contents with
  | .null => true
  | _ => false

/-- The method `file.isStream()`. -/
def File.isStream (file : File) : Bool :=
  match file.contents with
  | .stream => true
  | _ => false

/-- A resolved configuration: rule identifiers with their settings. -/
structure Configuration where
  rules : List (String × String)
  deriving DecidableEq, Repr

/-- The option `rulesDirectory`: a string or an array of strings. -/
inductive RulesDirectory where
  | str (s : String)
  | arr (dirs : List String)
  deriving DecidableEq, Repr

/-- JavaScript truthiness of a `rulesDirectory` value: the empty string is
falsy, every array is truthy. -/
def RulesDirectory.truthy : RulesDirectory → Bool
  | .str s => s != ""
  | .arr _ => true

/-- The options of the Linting Stage (`none` is an absent property). -/
structure PluginOptions where
  configuration : Option Configuration
  rulesDirectory : Option RulesDirectory
  deriving DecidableEq, Repr

/-- The options object handed to the engine (`none` is `null`, for
`configuration` it is `undefined`). -/
structure EngineOptions where
  formatter : String
  configuration : Option Configuration
  rulesDirectory : Option RulesDirectory
  formattersDirectory : Option String
  deriving DecidableEq, Repr

/-- What the resolver passes to the callback of `loader.for`. -/
structure Resolved where
  error : Option JsError
  fileopts : Option Configuration
  deriving DecidableEq, Repr

/-- The options bundle of the Reporting Stage. -/
structure Options where
  emitError : JsValue
  deriving DecidableEq, Repr

/-- The kinds of JavaScript function values. -/
inductive FunctionKind where
  | plain
  | async
  | generator
  | asyncGenerator
  deriving DecidableEq, Repr

/-- The class name that `Object.prototype.toString` reports for a function of
each kind. -/
def FunctionKind.className : FunctionKind → String
  | .plain => "Function"
  | .async => "AsyncFunction"
  | .generator => "GeneratorFunction"
  | .asyncGenerator => "AsyncGeneratorFunction"

/-- The reporter selector: a string, a function (of some kind, identified by
a number), or any other value that is not callable (undefined, null, a
number, a plain object). -/
inductive Reporter where
  | str (s : String)
  | function (kind : FunctionKind) (id : Nat)
  | other
  deriving DecidableEq, Repr

/-- The call `Object.prototype.toString.call(f)`.  A value that is not
callable has a tag other than `[object Function]`; `other` stands for such
values and is given the tag of a plain object. -/
def objectPrototypeToString (f : Reporter) : String :=
  match f with
  | .str _ => "[object String]"
  | .function kind _ => "[object " ++ kind.className ++ "]"
  | .other => "[object Object]"

/-- The helper `isFunction`. -/
def isFunction (f : Reporter) : Bool :=
  objectPrototypeToString f == "[object Function]"

/-- The formatter functions that `reportFailures` can call. -/
inductive Formatter where
  | jsonReporter
  | proseReporter
  | verboseReporter
  | fullReporter
  | custom (id : Nat)
  deriving DecidableEq, Repr

/-- Observable actions of the Linting Stage. -/
inductive LintEvent where
  | loaderFor (explicit : Option Configuration) (path : String)
  | engine (relative : String) (source : String) (options : EngineOptions)
  | cb (error : Option JsError) (file : Option File)
  deriving DecidableEq, Repr

/-- Observable actions of the Reporting Stage. -/
inductive Event where
  | call (formatter : Formatter) (failures : List Failure) (file : File) (options : Options)
  | log (line : String)
  | emitData (file : File)
  | emitError (error : JsError)
  | emitEnd
  deriving DecidableEq, Repr

/-- The external collaborators. -/
structure Env where
  /-- Function `JSON.parse` on an engine output: the failure list, or a throw. -/
  jsonParse : String → Except JsError (List Failure)
  /-- Function `JSON.stringify` on a failure list. -/
  jsonStringify : List Failure → String
  /-- Function `contents.toString('utf8')` on a buffer. -/
  toStringUtf8 : List Nat → String
  /-- Function `loader.for` of a loader made with the given explicit configuration. -/
  loaderFor : Option Configuration → String → Resolved
  /-- The engine: `new TSLint(relative, source, options).lint()`. -/
  lint : String → String → EngineOptions → LintResult

/-! ## The Linting Stage (`tslintPlugin`) -/

/-- The state of one file after the map callback, with the trace of actions. -/
structure LintOutcome where
  trace : List LintEvent
  file : File
  deriving DecidableEq, Repr

/-- The expression `pluginOptions.rulesDirectory || null`. -/
def rulesDirectoryOrNull (rulesDirectory : Option RulesDirectory) : Option RulesDirectory :=
  match rulesDirectory with
  | some d => if d.truthy then some d else none
  | none => none

/-- The map callback of `tslintPlugin(pluginOptions)` on one file. -/
def tslintPlugin (env : Env) (pluginOptions : Option PluginOptions) (file : File) : LintOutcome :=
  -- If user options are undefined, set an empty options object
  let pluginOptions : PluginOptions :=
    match pluginOptions with
    | some o => o
    | none => { configuration := none, rulesDirectory := none }
  -- Skip
  if file.isNull then
    { trace := [.cb none (some file)], file := file }
  -- Stream is not supported
  else if file.isStream then
    { trace := [.cb (some (.pluginError "gulp-tslint" "Streaming not supported")) none],
      file := file }
  else
    -- Finds the config file closest to the linted file
    let r := env.loaderFor pluginOptions.configuration file.path
    let options : EngineOptions :=
      { formatter := "json"
        configuration := r.fileopts
        rulesDirectory := rulesDirectoryOrNull pluginOptions.rulesDirectory
        formattersDirectory := none }
    match r.error with
    | some error =>
      { trace := [.loaderFor pluginOptions.configuration file.path, .cb (some error) none],
        file := file }
    | none =>
      -- file.contents.toString('utf8'); the contents are a buffer on this path
      let source :=
        match file.contents with
        | .buffer bytes => env.toStringUtf8 bytes
        | _ => ""
      let file' : File := { file with tslint := some (env.lint file.relative source options) }
      { trace := [.loaderFor pluginOptions.configuration file.path,
                  .engine file.relative source options,
                  .cb none (some file')],
        file := file' }

/-! ## Formatting -/

/-- Convert a failure to the prose error format. -/
def proseErrorFormat (failure : Failure) : String :=
  failure.name ++ "[" ++ toString (failure.startPosition.line + 1) ++ ", "
    ++ toString (failure.startPosition.character + 1) ++ "]: " ++ failure.failure

/-- The call `console.log(line)`. -/
def consoleLog (line : String) (out : List Event) : List Event :=
  out ++ [Event.log line]

/-- The method `Array.prototype.forEach`, threading the output. -/
def forEach {α : Type} (xs : List α) (f : α → List Event → List Event)
    (out : List Event) : List Event :=
  match xs with
  | [] => out
  | x :: rest => forEach rest f (f x out)

/-- The reporter `json`. -/
def jsonReporter (env : Env) (failures : List Failure) (out : List Event) : List Event :=
  consoleLog (env.jsonStringify failures) out

/-- The reporter `prose`. -/
def proseReporter (failures : List Failure) (out : List Event) : List Event :=
  forEach failures (fun failure out => consoleLog (proseErrorFormat failure) out) out

/-- The reporter `verbose`. -/
def verboseReporter (failures : List Failure) (out : List Event) : List Event :=
  forEach failures (fun failure out =>
    consoleLog ("(" ++ failure.ruleName ++ ") " ++ failure.name
      ++ "[" ++ toString (failure.startPosition.line + 1) ++ ", "
      ++ toString (failure.startPosition.character + 1) ++ "]: " ++ failure.failure) out) out

/-- The reporter `full`: like verbose, but prints the full path. -/
def fullReporter (failures : List Failure) (file : File) (out : List Event) : List Event :=
  forEach failures (fun failure out =>
    consoleLog ("(" ++ failure.ruleName ++ ") " ++ file.path
      ++ "[" ++ toString (failure.startPosition.line + 1) ++ ", "
      ++ toString (failure.startPosition.character + 1) ++ "]: " ++ failure.failure) out) out

/-! ## The Reporting Stage (`tslintPlugin.report`) -/

/-- The variables of one Reporting Stage: the two arrays and what the stage
has done so far. -/
structure Stage where
  errorFiles : List File
  allFailures : List Failure
  out : List Event
  deriving DecidableEq, Repr

/-- The default options of `report`. -/
def defaultOptions (options : Option Options) : Options :=
  let options : Options :=
    match options with
    | some o => o
    | none => { emitError := .undefined }
  if options.emitError = .undefined then { options with emitError := .bool true } else options

/-- A fresh stage: both arrays empty. -/
def Stage.init : Stage :=
  { errorFiles := [], allFailures := [], out := [] }

/-- Run the reporter for one file. -/
def reportFailures (env : Env) (reporter : Reporter) (options : Options)
    (st : Stage) (file : File) : Except JsError Stage :=
  match file.tslint with
  | none => .error .typeError
  | some tslint =>
    match env.jsonParse tslint.output with
    | .error e => .error e
    | .ok failures =>
      let st :=
        if failures.length > 0 then
          let st := { st with errorFiles := st.errorFiles ++ [file] }
          let st := { st with allFailures := st.allFailures ++ failures }
          if reporter = .str "json" then
            { st with out := jsonReporter env failures (st.out ++ [.call .jsonReporter failures file options]) }
          else if reporter = .str "prose" then
            { st with out := proseReporter failures (st.out ++ [.call .proseReporter failures file options]) }
          else if reporter = .str "verbose" then
            { st with out := verboseReporter failures (st.out ++ [.call .verboseReporter failures file options]) }
          else if reporter = .str "full" then
            { st with out := fullReporter failures file (st.out ++ [.call .fullReporter failures file options]) }
          else if isFunction reporter then
            match reporter with
            | .function _ id => { st with out := st.out ++ [.call (.custom id) failures file options] }
            | _ => st
          else st
        else st
      -- Pass file
      .ok { st with out := st.out ++ [.emitData file] }

/-- After reporting on all files, throw the error. -/
def throwErrors (options : Options) (st : Stage) : Stage :=
  if options.emitError = .bool true ∧ st.errorFiles.length > 0 then
    { st with out := st.out ++ [.emitError (.pluginError "gulp-tslint"
        ("Failed to lint: " ++ String.intercalate ", " (st.allFailures.map proseErrorFormat) ++ "."))] }
  else
    -- Notify through that we are done
    { st with out := st.out ++ [.emitEnd] }

/-- The write side of `through`: the files of the sequence, in delivery order. -/
def writeAll (env : Env) (reporter : Reporter) (options : Options)
    (st : Stage) (files : List File) : Except JsError Stage :=
  match files with
  | [] => .ok st
  | file :: rest =>
    match reportFailures env reporter options st file with
    | .error e => .error e
    | .ok st => writeAll env reporter options st rest

/-- A run of the stage `report(reporter, options)` over a sequence of files
followed by the end of the sequence. -/
def report (env : Env) (reporter : Reporter) (options : Option Options)
    (files : List File) : Except JsError Stage :=
  let options := defaultOptions options
  match writeAll env reporter options Stage.init files with
  | .error e => .error e
  | .ok st => .ok (throwErrors options st)

/-! ## Reading the selector and the options -/

/-- The formatter that a reporter selector names: one of the four built-in
names, or the caller-supplied function itself. -/
def selectedFormatter (reporter : Reporter) : Option Formatter :=
  match reporter with
  | .str s =>
    if s = "json" then some .jsonReporter
    else if s = "prose" then some .proseReporter
    else if s = "verbose" then some .verboseReporter
    else if s = "full" then some .fullReporter
    else none
  | .function _ id => some (.custom id)
  | .other => none

/-- The formatter that the dispatch of `reportFailures` reaches for a
selector: as `selectedFormatter`, but a function only when `isFunction`
accepts it. -/
def invokedFormatter (reporter : Reporter) : Option Formatter :=
  match reporter with
  | .function kind id => if isFunction (.function kind id) then some (.custom id) else none
  | r => selectedFormatter r

/-- The file carries a lint result whose output parses to `failures`. -/
def Linted (env : Env) (file : File) (failures : List Failure) : Prop :=
  ∃ r, file.tslint = some r ∧ env.jsonParse r.output = .ok failures

/-- The caller asked for the terminal error: `emitError` is `true`, or it was
omitted (no options, or `options.emitError` undefined). -/
def EmitErrorRequested (options : Option Options) : Prop :=
  match options with
  | none => True
  | some o => o.emitError = .undefined ∨ o.emitError = .bool true

instance (options : Option Options) : Decidable (EmitErrorRequested options) :=
  match options with
  | none => isTrue trivial
  | some o => inferInstanceAs (Decidable (o.emitError = .undefined ∨ o.emitError = .bool true))

instance (env : Env) (file : File) (failures : List Failure) :
    Decidable (Linted env file failures) :=
  match ht : file.tslint with
  | none => isFalse (fun ⟨r, hr, _⟩ => by rw [ht] at hr; cases hr)
  | some r =>
    match hp : env.jsonParse r.output with
    | .error e =>
      isFalse (fun ⟨r', hr, hq⟩ => by
        rw [ht] at hr
        cases hr
        rw [hp] at hq
        cases hq)
    | .ok fs =>
      if hfs : fs = failures then isTrue ⟨r, ht, by rw [hp, hfs]⟩
      else
        isFalse (fun ⟨r', hr, hq⟩ => by
          rw [ht] at hr
          cases hr
          rw [hp] at hq
          exact hfs (Except.ok.inj hq))

/-- Terminal events of the Reporting Stage: `error` and `end`. -/
def Event.isTerminal : Event → Bool
  | .emitError _ => true
  | .emitEnd => true
  | _ => false

/-! ## Two statements that are compared with the code -/

/-- The engine options with "rulesDirectory: the stage option `rulesDirectory`,
or null when it is absent". -/
def statedEngineOptions (pluginOptions : Option PluginOptions) (c : Configuration) :
    EngineOptions :=
  { formatter := "json"
    configuration := some c
    rulesDirectory := pluginOptions.bind fun o => o.rulesDirectory
    formattersDirectory := none }

/-- The engine options with "rulesDirectory: the stage option `rulesDirectory`
when it is a non-empty string or an array, null when it is absent or the
empty string". -/
def passedEngineOptions (pluginOptions : Option PluginOptions) (c : Configuration) :
    EngineOptions :=
  { formatter := "json"
    configuration := some c
    rulesDirectory :=
      match pluginOptions.bind fun o => o.rulesDirectory with
      | some (.str s) => if s = "" then none else some (.str s)
      | some (.arr dirs) => some (.arr dirs)
      | none => none
    formattersDirectory := none }

/-- The statement that, for every buffer-backed file whose configuration
resolves without error to `c`, the engine is called with the file's relative
path, its decoded contents and `statedEngineOptions`. -/
def EngineGetsStatedOptions : Prop :=
  ∀ (env : Env) (pluginOptions : Option PluginOptions) (file : File)
    (bytes : List Nat) (c : Configuration),
    file.contents = .buffer bytes →
    env.loaderFor (pluginOptions.bind fun o => o.configuration) file.path
      = { error := none, fileopts := some c } →
    LintEvent.engine file.relative (env.toStringUtf8 bytes) (statedEngineOptions pluginOptions c)
      ∈ (tslintPlugin env pluginOptions file).trace

/-- The statement that, for every selector that is one of the four names or
a function, a linted file with at least one failure makes the stage call the
selected formatter with (the failures, the file, the options). -/
def SelectedFormatterIsCalled : Prop :=
  ∀ (env : Env) (reporter : Reporter) (options : Options) (st : Stage) (file : File)
    (failures : List Failure) (fmt : Formatter),
    Linted env file failures →
    selectedFormatter reporter = some fmt →
    1 ≤ failures.length →
    ∃ st' added, reportFailures env reporter options st file = .ok st'
      ∧ st'.out = st.out ++ added
      ∧ Event.call fmt failures file options ∈ added

/-- The statement that every error either stage surfaces (through the
per-file callback of the Linting Stage, or as an `error` event of the
Reporting Stage) is a `PluginError` with the tag `gulp-tslint`. -/
def SurfacedErrorsArePluginErrors : Prop :=
  (∀ (env : Env) (pluginOptions : Option PluginOptions) (file : File)
      (e : JsError) (f : Option File),
      LintEvent.cb (some e) f ∈ (tslintPlugin env pluginOptions file).trace →
      ∃ message, e = .pluginError "gulp-tslint" message)
  ∧ (∀ (env : Env) (reporter : Reporter) (options : Option Options) (files : List File)
      (st : Stage) (e : JsError),
      report env reporter options files = .ok st →
      Event.emitError e ∈ st.out →
      ∃ message, e = .pluginError "gulp-tslint" message)

/-! ## Sample inputs -/

/-- The failure of the scenario: `b.ts`, rule `no-any`, line 0, character 4. -/
def sampleFailure : Failure :=
  { name := "b.ts", failure := "no any",
    startPosition := { position := 4, line := 0, character := 4 },
    endPosition := { position := 7, line := 0, character := 7 },
    ruleName := "no-any" }

/-- A sample environment.  Its `JSON.parse` knows two engine outputs, `[]`
and the output `[b]` that stands for the list holding `sampleFailure`; its
resolver fails for the path `/bad/x.ts` and resolves to the empty
configuration elsewhere; its engine reports `[]` for every source. -/
def sampleEnv : Env :=
  { jsonParse := fun s =>
      if s = "[]" then .ok []
      else if s = "[b]" then .ok [sampleFailure]
      else .error (.other "SyntaxError" "Unexpected token")
    jsonStringify := fun failures => toString failures.length
    toStringUtf8 := fun bytes => String.mk (bytes.map Char.ofNat)
    loaderFor := fun explicit path =>
      if path = "/bad/x.ts" then
        { error := some (.other "SyntaxError" "Unexpected token in tslint.json"), fileopts := none }
      else
        { error := none, fileopts := some (explicit.getD { rules := [] }) }
    lint := fun _ _ _ => { output := "[]" } }

/-- The linted file `a.ts` of the scenario: no failures. -/
def sampleFileA : File :=
  { path := "/src/a.ts", relative := "a.ts", contents := .buffer [120],
    tslint := some { output := "[]" } }

/-- The linted file `b.ts` of the scenario: one failure. -/
def sampleFileB : File :=
  { path := "/src/b.ts", relative := "b.ts", contents := .buffer [121],
    tslint := some { output := "[b]" } }

/-- A file with no contents, as it enters the Linting Stage. -/
def sampleNullFile : File :=
  { path := "/src/dir", relative := "dir", contents := .null, tslint := none }

/-- A file whose contents are a stream. -/
def sampleStreamFile : File :=
  { path := "/src/s.ts", relative := "s.ts", contents := .stream, tslint := none }

/-- A buffer-backed file, not yet linted. -/
def sampleBufferFile : File :=
  { path := "/src/a.ts", relative := "a.ts", contents := .buffer [120], tslint := none }

/-- A buffer-backed file for which the sample resolver fails. -/
def sampleBadConfigFile : File :=
  { path := "/bad/x.ts", relative := "x.ts", contents := .buffer [120], tslint := none }

/-! ## Lemmas on the formatters -/

theorem forEach_consoleLog {α : Type} (g : α → String) (xs : List α) (out : List Event) :
    forEach xs (fun x out => consoleLog (g x) out) out
      = out ++ xs.map (fun x => Event.log (g x)) := by
  induction xs generalizing out with
  | nil => simp [forEach]
  | cons x rest ih =>
    rw [forEach, ih, consoleLog, List.map_cons, List.append_assoc]
    rfl

/-! ## Lemmas on the Reporting Stage -/

theorem proseReporter_eq (failures : List Failure) (out : List Event) :
    proseReporter failures out
      = out ++ (failures.map proseErrorFormat).map Event.log := by
  rw [proseReporter, forEach_consoleLog, List.map_map]
  rfl

theorem verboseReporter_eq (failures : List Failure) (out : List Event) :
    ∃ lines : List String, verboseReporter failures out = out ++ lines.map Event.log := by
  refine ⟨failures.map (fun f : Failure =>
      "(" ++ f.ruleName ++ ") " ++ f.name ++ "[" ++ toString (f.startPosition.line + 1)
        ++ ", " ++ toString (f.startPosition.character + 1) ++ "]: " ++ f.failure), ?_⟩
  rw [verboseReporter, forEach_consoleLog, List.map_map]
  rfl

theorem fullReporter_eq (failures : List Failure) (file : File) (out : List Event) :
    ∃ lines : List String, fullReporter failures file out = out ++ lines.map Event.log := by
  refine ⟨failures.map (fun f : Failure =>
      "(" ++ f.ruleName ++ ") " ++ file.path ++ "[" ++ toString (f.startPosition.line + 1)
        ++ ", " ++ toString (f.startPosition.character + 1) ++ "]: " ++ f.failure), ?_⟩
  rw [fullReporter, forEach_consoleLog, List.map_map]
  rfl

/-- One file with a non-empty failure list: the state after `reportFailures`. -/
theorem reportFailures_of_failures (env : Env) (reporter : Reporter) (options : Options)
    (st : Stage) (file : File) (failures : List Failure)
    (hl : Linted env file failures) (hne : failures ≠ []) :
    ∃ lines : List String,
      reportFailures env reporter options st file
        = .ok { errorFiles := st.errorFiles ++ [file],
                allFailures := st.allFailures ++ failures,
                out := st.out
                  ++ (invokedFormatter reporter).toList.map
                      (fun fmt => Event.call fmt failures file options)
                  ++ lines.map Event.log ++ [Event.emitData file] } := by
  obtain ⟨r, hr, hp⟩ := hl
  have hlen : 0 < failures.length := List.length_pos.mpr hne
  cases reporter with
  | str s =>
    by_cases h1 : s = "json"
    · subst h1
      refine ⟨[env.jsonStringify failures], ?_⟩
      simp [reportFailures, hr, hp, hlen, invokedFormatter, selectedFormatter, jsonReporter,
        consoleLog]
    · by_cases h2 : s = "prose"
      · subst h2
        refine ⟨failures.map proseErrorFormat, ?_⟩
        simp [reportFailures, hr, hp, hlen, invokedFormatter, selectedFormatter,
          proseReporter_eq]
      · by_cases h3 : s = "verbose"
        · subst h3
          obtain ⟨lines, hv⟩ := verboseReporter_eq failures
            (st.out ++ [Event.call Formatter.verboseReporter failures file options])
          refine ⟨lines, ?_⟩
          simp [reportFailures, hr, hp, hlen, invokedFormatter, selectedFormatter, hv]
        · by_cases h4 : s = "full"
          · subst h4
            obtain ⟨lines, hv⟩ := fullReporter_eq failures file
              (st.out ++ [Event.call Formatter.fullReporter failures file options])
            refine ⟨lines, ?_⟩
            simp [reportFailures, hr, hp, hlen, invokedFormatter, selectedFormatter, hv]
          · refine ⟨[], ?_⟩
            have hnf : isFunction (Reporter.str s) = false := rfl
            simp [reportFailures, hr, hp, hlen, invokedFormatter, selectedFormatter,
              h1, h2, h3, h4, hnf]
  | function kind id =>
    refine ⟨[], ?_⟩
    by_cases hfun : isFunction (Reporter.function kind id) = true
    · simp [reportFailures, hr, hp, hlen, invokedFormatter, hfun]
    · simp [reportFailures, hr, hp, hlen, invokedFormatter, hfun]
  | other =>
    refine ⟨[], ?_⟩
    have hnf : isFunction Reporter.other = false := by decide
    simp [reportFailures, hr, hp, hlen, invokedFormatter, selectedFormatter, hnf]

/-- One file with an empty failure list: the file is passed, nothing else. -/
theorem reportFailures_of_no_failures (env : Env) (reporter : Reporter) (options : Options)
    (st : Stage) (file : File) (hl : Linted env file []) :
    reportFailures env reporter options st file
      = .ok { st with out := st.out ++ [Event.emitData file] } := by
  obtain ⟨r, hr, hp⟩ := hl
  simp [reportFailures, hr, hp]

/-- A sequence of linted files: the state after all writes. -/
theorem writeAll_linted (env : Env) (reporter : Reporter) (options : Options)
    (files : List File) (fss : List (List Failure))
    (h : List.Forall₂ (Linted env) files fss) (st : Stage) :
    ∃ st' mid, writeAll env reporter options st files = .ok st'
      ∧ st'.allFailures = st.allFailures ++ fss.flatten
      ∧ (0 < st'.errorFiles.length ↔ 0 < st.errorFiles.length ∨ fss.flatten ≠ [])
      ∧ st'.out = st.out ++ mid
      ∧ ∀ e ∈ mid, e.isTerminal = false := by
  induction h generalizing st with
  | nil => exact ⟨st, [], by simp [writeAll]⟩
  | @cons file failures rest fss hl _ ih =>
    by_cases hne : failures = []
    · subst hne
      have h1 := reportFailures_of_no_failures env reporter options st file hl
      obtain ⟨st', mid, hw, ha, he, ho, ht⟩ :=
        ih { st with out := st.out ++ [Event.emitData file] }
      refine ⟨st', Event.emitData file :: mid, ?_, ?_, ?_, ?_, ?_⟩
      · simp [writeAll, h1, hw]
      · simpa using ha
      · simpa using he
      · simpa using ho
      · intro e hmem
        rcases List.mem_cons.mp hmem with rfl | hmem
        · rfl
        · exact ht e hmem
    · obtain ⟨lines, h1⟩ := reportFailures_of_failures env reporter options st file failures hl hne
      obtain ⟨st', mid, hw, ha, he, ho, ht⟩ :=
        ih { errorFiles := st.errorFiles ++ [file],
             allFailures := st.allFailures ++ failures,
             out := st.out
               ++ (invokedFormatter reporter).toList.map
                   (fun fmt => Event.call fmt failures file options)
               ++ lines.map Event.log ++ [Event.emitData file] }
      refine ⟨st', ((invokedFormatter reporter).toList.map
                   (fun fmt => Event.call fmt failures file options)
               ++ lines.map Event.log ++ [Event.emitData file]) ++ mid, ?_, ?_, ?_, ?_, ?_⟩
      · simp only [writeAll, h1]
        exact hw
      · simpa using ha
      · simp [he, hne]
      · simpa using ho
      · intro e hmem
        simp only [List.mem_append, List.mem_map, List.mem_singleton] at hmem
        rcases hmem with ((⟨fmt, _, rfl⟩ | ⟨line, _, rfl⟩) | rfl) | hmem
        · rfl
        · rfl
        · rfl
        · exact ht e hmem

theorem defaultOptions_emitError (options : Option Options) :
    (defaultOptions options).emitError = .bool true ↔ EmitErrorRequested options := by
  cases options with
  | none => simp [defaultOptions, EmitErrorRequested]
  | some o =>
    by_cases hu : o.emitError = .undefined
    · simp [defaultOptions, EmitErrorRequested, hu]
    · simp [defaultOptions, EmitErrorRequested, hu]

/-- A write that returns was given a linted file. -/
theorem linted_of_reportFailures_ok (env : Env) (reporter : Reporter) (options : Options)
    (st st' : Stage) (file : File)
    (h : reportFailures env reporter options st file = .ok st') :
    ∃ failures, Linted env file failures := by
  unfold reportFailures at h
  cases ht : file.tslint with
  | none => simp [ht] at h
  | some r =>
    cases hp : env.jsonParse r.output with
    | error e => simp [ht, hp] at h
    | ok failures => exact ⟨failures, r, ht, hp⟩

/-- A sequence of writes that returns was given linted files. -/
theorem linted_of_writeAll_ok (env : Env) (reporter : Reporter) (options : Options)
    (files : List File) (st st' : Stage)
    (h : writeAll env reporter options st files = .ok st') :
    ∃ fss, List.Forall₂ (Linted env) files fss := by
  induction files generalizing st with
  | nil => exact ⟨[], List.Forall₂.nil⟩
  | cons file rest ih =>
    unfold writeAll at h
    cases h1 : reportFailures env reporter options st file with
    | error e => simp [h1] at h
    | ok st1 =>
      simp only [h1] at h
      obtain ⟨failures, hl⟩ := linted_of_reportFailures_ok env reporter options st st1 file h1
      obtain ⟨fss, hrest⟩ := ih st1 h
      exact ⟨failures :: fss, List.Forall₂.cons hl hrest⟩

/-- The only `error` event of a run over linted files is the aggregate one. -/
theorem error_event_of_report (env : Env) (reporter : Reporter) (options : Option Options)
    (files : List File) (fss : List (List Failure))
    (hl : List.Forall₂ (Linted env) files fss)
    (st : Stage) (hr : report env reporter options files = .ok st)
    (e : JsError) (he : Event.emitError e ∈ st.out) :
    e = .pluginError "gulp-tslint"
          ("Failed to lint: "
            ++ String.intercalate ", " (fss.flatten.map proseErrorFormat) ++ ".") := by
  obtain ⟨st0, mid, hw, ha, _, ho, ht⟩ :=
    writeAll_linted env reporter (defaultOptions options) files fss hl Stage.init
  have hst : st = throwErrors (defaultOptions options) st0 := by
    simp only [report, hw] at hr
    exact (Except.ok.inj hr).symm
  have hall : st0.allFailures = fss.flatten := by simpa [Stage.init] using ha
  have hout : st0.out = mid := by simpa [Stage.init] using ho
  have hnot : Event.emitError e ∉ st0.out := by
    intro hmem
    rw [hout] at hmem
    have := ht _ hmem
    simp [Event.isTerminal] at this
  rw [hst] at he
  unfold throwErrors at he
  split at he
  · simp only [List.mem_append, List.mem_singleton] at he
    rcases he with he | he
    · exact absurd he hnot
    · rw [hall] at he
      exact Event.emitError.inj he
  · simp only [List.mem_append, List.mem_singleton] at he
    rcases he with he | he
    · exact absurd he hnot
    · cases he

/-- For a selector that names a formatter and, when it is a function, passes
`isFunction`, the dispatch reaches the selected formatter. -/
theorem invokedFormatter_of_selected (reporter : Reporter) (fmt : Formatter)
    (hs : selectedFormatter reporter = some fmt)
    (hf : ∀ kind id, reporter = .function kind id →
      objectPrototypeToString reporter = "[object Function]") :
    invokedFormatter reporter = some fmt := by
  cases reporter with
  | str s => simpa [invokedFormatter] using hs
  | other => simpa [invokedFormatter] using hs
  | function kind id =>
    have htag := hf kind id rfl
    have hfun : isFunction (Reporter.function kind id) = true := by
      simp [isFunction, htag]
    simp only [selectedFormatter] at hs
    simp [invokedFormatter, hfun, hs]

/-! ## The built-in formatters -/

/-- C4: for every failure list and every file, the reporters `prose`,
`verbose` and `full` add to the output exactly one printed line per failure,
in list order; the line of a failure with name `n`, rule `r`, message `m` and
start position (line `l`, character `c`) is `n[l+1, c+1]: m`, `(r) n[l+1, c+1]: m`
and `(r) P[l+1, c+1]: m` with `P` the path of the file: line and column are
one more than the 0-based values of the engine. -/
theorem builtin_reporters_print_one_line_per_failure
    (failures : List Failure) (file : File) (out : List Event) :
    proseReporter failures out
        = out ++ failures.map (fun f => Event.log
            (f.name ++ "[" ++ toString (f.startPosition.line + 1) ++ ", "
              ++ toString (f.startPosition.character + 1) ++ "]: " ++ f.failure))
    ∧ verboseReporter failures out
        = out ++ failures.map (fun f => Event.log
            ("(" ++ f.ruleName ++ ") " ++ f.name ++ "[" ++ toString (f.startPosition.line + 1)
              ++ ", " ++ toString (f.startPosition.character + 1) ++ "]: " ++ f.failure))
    ∧ fullReporter failures file out
        = out ++ failures.map (fun f => Event.log
            ("(" ++ f.ruleName ++ ") " ++ file.path ++ "[" ++ toString (f.startPosition.line + 1)
              ++ ", " ++ toString (f.startPosition.character + 1) ++ "]: " ++ f.failure))
    ∧ (proseReporter failures out).length = out.length + failures.length
    ∧ (verboseReporter failures out).length = out.length + failures.length
    ∧ (fullReporter failures file out).length = out.length + failures.length := by
  have hp := forEach_consoleLog proseErrorFormat failures out
  have hv := forEach_consoleLog (fun f : Failure =>
      "(" ++ f.ruleName ++ ") " ++ f.name ++ "[" ++ toString (f.startPosition.line + 1)
        ++ ", " ++ toString (f.startPosition.character + 1) ++ "]: " ++ f.failure) failures out
  have hf := forEach_consoleLog (fun f : Failure =>
      "(" ++ f.ruleName ++ ") " ++ file.path ++ "[" ++ toString (f.startPosition.line + 1)
        ++ ", " ++ toString (f.startPosition.character + 1) ++ "]: " ++ f.failure) failures out
  refine ⟨hp, hv, hf, ?_, ?_, ?_⟩
  · rw [show proseReporter failures out = _ from hp]; simp
  · rw [show verboseReporter failures out = _ from hv]; simp
  · rw [show fullReporter failures file out = _ from hf]; simp

/-! ## The Linting Stage -/

/-- C6: a file with no contents is forwarded unchanged by the Linting Stage:
the only action is the callback with no error and the same file, no lint
result is attached, neither the resolver nor the engine is called. -/
theorem lint_null_file_passes_through
    (env : Env) (pluginOptions : Option PluginOptions) (file : File)
    (hnull : file.isNull = true) :
    tslintPlugin env pluginOptions file
        = { trace := [LintEvent.cb none (some file)], file := file }
    ∧ (tslintPlugin env pluginOptions file).file.tslint = file.tslint
    ∧ (∀ explicit path,
        LintEvent.loaderFor explicit path ∉ (tslintPlugin env pluginOptions file).trace)
    ∧ (∀ relative source options,
        LintEvent.engine relative source options ∉ (tslintPlugin env pluginOptions file).trace) := by
  have h : tslintPlugin env pluginOptions file
      = { trace := [LintEvent.cb none (some file)], file := file } := by
    simp [tslintPlugin, hnull]
  rw [h]
  simp

theorem lint_null_file_passes_through_witness :
    tslintPlugin sampleEnv none sampleNullFile
        = { trace := [LintEvent.cb none (some sampleNullFile)], file := sampleNullFile }
    ∧ (tslintPlugin sampleEnv none sampleNullFile).file.tslint = none :=
  ⟨(lint_null_file_passes_through sampleEnv none sampleNullFile rfl).1,
   (lint_null_file_passes_through sampleEnv none sampleNullFile rfl).2.1⟩

/-- C8: for a file that is not null and whose contents are a stream, the
Linting Stage calls back exactly once, with the single error
`PluginError('gulp-tslint', 'Streaming not supported')` and no file; no lint
result is attached, neither the resolver nor the engine is called. -/
theorem lint_stream_file_is_rejected
    (env : Env) (pluginOptions : Option PluginOptions) (file : File)
    (hnull : file.isNull = false) (hstream : file.isStream = true) :
    tslintPlugin env pluginOptions file
        = { trace := [LintEvent.cb
                        (some (JsError.pluginError "gulp-tslint" "Streaming not supported")) none],
            file := file }
    ∧ (tslintPlugin env pluginOptions file).file.tslint = file.tslint
    ∧ (∀ error f, LintEvent.cb error (some f) ∉ (tslintPlugin env pluginOptions file).trace)
    ∧ (∀ explicit path,
        LintEvent.loaderFor explicit path ∉ (tslintPlugin env pluginOptions file).trace)
    ∧ (∀ relative source options,
        LintEvent.engine relative source options ∉ (tslintPlugin env pluginOptions file).trace) := by
  have h : tslintPlugin env pluginOptions file
      = { trace := [LintEvent.cb
                      (some (JsError.pluginError "gulp-tslint" "Streaming not supported")) none],
          file := file } := by
    simp [tslintPlugin, hnull, hstream]
  rw [h]
  simp

theorem lint_stream_file_is_rejected_witness :
    tslintPlugin sampleEnv none sampleStreamFile
        = { trace := [LintEvent.cb
                        (some (JsError.pluginError "gulp-tslint" "Streaming not supported")) none],
            file := sampleStreamFile } :=
  (lint_stream_file_is_rejected sampleEnv none sampleStreamFile rfl rfl).1

/-- C9: for a buffer-backed file whose configuration resolution fails with an
error `e`, the Linting Stage calls the resolver and then calls back exactly
once with that same error `e` and no file: the file is not forwarded, the
engine is not called and no lint result is attached. -/
theorem lint_config_failure_propagates
    (env : Env) (pluginOptions : Option PluginOptions) (file : File)
    (bytes : List Nat) (e : JsError)
    (hbuf : file.contents = .buffer bytes)
    (hfail : (env.loaderFor (pluginOptions.bind fun o => o.configuration) file.path).error
        = some e) :
    tslintPlugin env pluginOptions file
        = { trace := [LintEvent.loaderFor (pluginOptions.bind fun o => o.configuration) file.path,
                      LintEvent.cb (some e) none],
            file := file }
    ∧ (tslintPlugin env pluginOptions file).file.tslint = file.tslint
    ∧ (∀ error f, LintEvent.cb error (some f) ∉ (tslintPlugin env pluginOptions file).trace)
    ∧ (∀ relative source options,
        LintEvent.engine relative source options ∉ (tslintPlugin env pluginOptions file).trace) := by
  have h : tslintPlugin env pluginOptions file
      = { trace := [LintEvent.loaderFor (pluginOptions.bind fun o => o.configuration) file.path,
                    LintEvent.cb (some e) none],
          file := file } := by
    cases pluginOptions <;>
      simp_all [tslintPlugin, File.isNull, File.isStream]
  rw [h]
  simp

theorem lint_config_failure_propagates_witness :
    tslintPlugin sampleEnv none sampleBadConfigFile
        = { trace := [LintEvent.loaderFor none "/bad/x.ts",
                      LintEvent.cb
                        (some (JsError.other "SyntaxError" "Unexpected token in tslint.json")) none],
            file := sampleBadConfigFile } :=
  (lint_config_failure_propagates sampleEnv none sampleBadConfigFile [120]
    (JsError.other "SyntaxError" "Unexpected token in tslint.json") rfl rfl).1

/-! ## The Reporting Stage -/

/-- C1: for every sequence of linted files passed through the stage
`report(reporter, options)`, the writes emit no terminal event and the
end-of-sequence handler emits exactly one: an `error` event if and only if
`emitError` is true or was omitted and at least one failure was recorded in
the run, and the `end` event in every other case. -/
theorem report_emits_one_terminal_event
    (env : Env) (reporter : Reporter) (options : Option Options)
    (files : List File) (fss : List (List Failure))
    (hl : List.Forall₂ (Linted env) files fss) :
    ∃ st t,
      writeAll env reporter (defaultOptions options) Stage.init files = .ok st
      ∧ (∀ e ∈ st.out, e.isTerminal = false)
      ∧ report env reporter options files = .ok (throwErrors (defaultOptions options) st)
      ∧ (throwErrors (defaultOptions options) st).out = st.out ++ [t]
      ∧ ((∃ err, t = Event.emitError err)
          ↔ (EmitErrorRequested options ∧ 1 ≤ fss.flatten.length))
      ∧ (t = Event.emitEnd
          ↔ ¬ (EmitErrorRequested options ∧ 1 ≤ fss.flatten.length)) := by
  obtain ⟨st, mid, hw, _, he, ho, ht⟩ :=
    writeAll_linted env reporter (defaultOptions options) files fss hl Stage.init
  have hout : st.out = mid := by simpa [Stage.init] using ho
  have hfiles : 0 < st.errorFiles.length ↔ 1 ≤ fss.flatten.length := by
    have hpos : 1 ≤ fss.flatten.length ↔ fss.flatten ≠ [] := List.length_pos
    rw [he, hpos]
    simp [Stage.init]
  have hopt := defaultOptions_emitError options
  by_cases hc : (defaultOptions options).emitError = .bool true ∧ 0 < st.errorFiles.length
  · have hreq : EmitErrorRequested options ∧ 1 ≤ fss.flatten.length :=
      ⟨hopt.mp hc.1, hfiles.mp hc.2⟩
    refine ⟨st, Event.emitError (.pluginError "gulp-tslint"
        ("Failed to lint: " ++ String.intercalate ", " (st.allFailures.map proseErrorFormat)
          ++ ".")), hw, ?_, ?_, ?_, ?_, ?_⟩
    · rw [hout]; exact ht
    · simp [report, hw]
    · simp [throwErrors, hc]
    · exact ⟨fun _ => hreq, fun _ => ⟨_, rfl⟩⟩
    · exact ⟨fun h => (by cases h), fun h => absurd hreq h⟩
  · have hreq : ¬ (EmitErrorRequested options ∧ 1 ≤ fss.flatten.length) := by
      rintro ⟨h1, h2⟩
      exact hc ⟨hopt.mpr h1, hfiles.mpr h2⟩
    refine ⟨st, Event.emitEnd, hw, ?_, ?_, ?_, ?_, ?_⟩
    · rw [hout]; exact ht
    · simp [report, hw]
    · simp [throwErrors, hc]
    · exact ⟨fun ⟨_, h⟩ => (by cases h), fun h => absurd h hreq⟩
    · exact ⟨fun _ => hreq, fun _ => rfl⟩

theorem report_emits_one_terminal_event_witness :
    ∃ st t,
      writeAll sampleEnv (.str "prose") (defaultOptions none) Stage.init
          [sampleFileA, sampleFileB] = .ok st
      ∧ (∀ e ∈ st.out, e.isTerminal = false)
      ∧ report sampleEnv (.str "prose") none [sampleFileA, sampleFileB]
          = .ok (throwErrors (defaultOptions none) st)
      ∧ (throwErrors (defaultOptions none) st).out = st.out ++ [t]
      ∧ ((∃ err, t = Event.emitError err)
          ↔ (EmitErrorRequested none ∧ 1 ≤ [[], [sampleFailure]].flatten.length))
      ∧ (t = Event.emitEnd
          ↔ ¬ (EmitErrorRequested none ∧ 1 ≤ [[], [sampleFailure]].flatten.length)) :=
  report_emits_one_terminal_event sampleEnv (.str "prose") none
    [sampleFileA, sampleFileB] [[], [sampleFailure]]
    (List.Forall₂.cons ⟨_, rfl, rfl⟩ (List.Forall₂.cons ⟨_, rfl, rfl⟩ List.Forall₂.nil))


/-- C2: whenever a run over linted files ends with the `error` event, the
error is the `PluginError` whose message is `Failed to lint: ` followed by
the prose renderings of all failures of the run (files in delivery order,
failures in the order of each parsed list) joined by `, ` and a final `.`; so
the message contains that joined text with the trailing period as one
contiguous piece, and for the run `a.ts` (no failure), `b.ts` (one failure:
name `b.ts`, line 0, character 4, message `no any`) it contains
`b.ts[1, 5]: no any.`. -/
theorem aggregate_error_message
    (env : Env) (reporter : Reporter) (options : Option Options)
    (files : List File) (fss : List (List Failure))
    (hl : List.Forall₂ (Linted env) files fss)
    (st : Stage) (hr : report env reporter options files = .ok st)
    (e : JsError) (he : Event.emitError e ∈ st.out) :
    e = .pluginError "gulp-tslint"
          ("Failed to lint: "
            ++ String.intercalate ", " (fss.flatten.map proseErrorFormat) ++ ".")
    ∧ (∃ pre post, e = .pluginError "gulp-tslint"
          (pre ++ (String.intercalate ", " (fss.flatten.map proseErrorFormat) ++ ".") ++ post))
    ∧ (∀ (a b : File) (fb : Failure),
        files = [a, b] → fss = [[], [fb]] →
        fb.name = "b.ts" → fb.startPosition.line = 0 → fb.startPosition.character = 4 →
        fb.failure = "no any" →
        ∃ pre post, e = .pluginError "gulp-tslint" (pre ++ "b.ts[1, 5]: no any." ++ post)) := by
  have hmsg := error_event_of_report env reporter options files fss hl st hr e he
  refine ⟨hmsg, ⟨"Failed to lint: ", "", ?_⟩, ?_⟩
  · rw [hmsg, String.append_empty, String.append_assoc]
  · intro a b fb _ hfss hn hline hchar hf
    refine ⟨"Failed to lint: ", "", ?_⟩
    have hprose : proseErrorFormat fb = "b.ts[1, 5]: no any" := by
      simp only [proseErrorFormat, hn, hline, hchar, hf]
      rfl
    rw [hmsg, hfss, String.append_empty, String.append_assoc]
    simp only [List.flatten, List.nil_append, List.append_nil, List.map_cons, List.map_nil,
      hprose]
    rfl

theorem aggregate_error_message_witness :
    JsError.pluginError "gulp-tslint" "Failed to lint: b.ts[1, 5]: no any."
      = .pluginError "gulp-tslint"
          ("Failed to lint: "
            ++ String.intercalate ", " ([[], [sampleFailure]].flatten.map proseErrorFormat)
            ++ ".")
    ∧ (∃ pre post, JsError.pluginError "gulp-tslint" "Failed to lint: b.ts[1, 5]: no any."
          = .pluginError "gulp-tslint" (pre ++ "b.ts[1, 5]: no any." ++ post)) :=
  have h := aggregate_error_message sampleEnv (.str "prose") none
    [sampleFileA, sampleFileB] [[], [sampleFailure]]
    (List.Forall₂.cons ⟨_, rfl, rfl⟩ (List.Forall₂.cons ⟨_, rfl, rfl⟩ List.Forall₂.nil))
    { errorFiles := [sampleFileB]
      allFailures := [sampleFailure]
      out := [ .emitData sampleFileA
             , .call .proseReporter [sampleFailure] sampleFileB { emitError := .bool true }
             , .log "b.ts[1, 5]: no any"
             , .emitData sampleFileB
             , .emitError (.pluginError "gulp-tslint" "Failed to lint: b.ts[1, 5]: no any.") ] }
    rfl
    (.pluginError "gulp-tslint" "Failed to lint: b.ts[1, 5]: no any.")
    (by simp)
  ⟨h.1, h.2.2 sampleFileA sampleFileB sampleFailure rfl rfl rfl rfl rfl rfl⟩

/-- C3 as stated fails: an async function is a function, but `isFunction`
rejects it (its tag is `[object AsyncFunction]`), so for a file with one
failure the file and the failure are recorded and the file is passed on, but
the selected formatter is never called. -/
theorem selected_formatter_is_called_counterexample :
    reportFailures sampleEnv (.function .async 0) { emitError := .bool true } Stage.init
        sampleFileB
      = .ok { errorFiles := [sampleFileB],
              allFailures := [sampleFailure],
              out := [.emitData sampleFileB] }
    ∧ selectedFormatter (.function .async 0) = some (.custom 0)
    ∧ objectPrototypeToString (.function .async 0) = "[object AsyncFunction]"
    ∧ isFunction (.function .async 0) = false
    ∧ ¬ SelectedFormatterIsCalled := by
  have hrun : reportFailures sampleEnv (.function .async 0) { emitError := .bool true }
      Stage.init sampleFileB
        = .ok { errorFiles := [sampleFileB],
                allFailures := [sampleFailure],
                out := [.emitData sampleFileB] } := by
    rfl
  refine ⟨hrun, rfl, by decide, by decide, ?_⟩
  intro h
  obtain ⟨st', added, hr, ho, hmem⟩ :=
    h sampleEnv (.function .async 0) { emitError := .bool true } Stage.init sampleFileB
      [sampleFailure] (.custom 0) ⟨_, rfl, rfl⟩ rfl (by decide)
  rw [hrun] at hr
  have hst := Except.ok.inj hr
  subst hst
  have hadded : added = [Event.emitData sampleFileB] := by
    simpa [Stage.init] using ho.symm
  rw [hadded] at hmem
  simp at hmem

/-- C3 (amended): for a reporter selector that is `json`, `prose`, `verbose`,
`full` or a function for which `Object.prototype.toString` gives
`[object Function]`, and a linted file whose parsed failure list has `N`
entries: if `N >= 1` the selected formatter is called exactly once, with the
arguments (that list, the file, the options bundle), the file is added to the
failing files, the list is appended to the run-wide list, and besides printed
lines nothing else happens before the file is passed on; if `N = 0` nothing
is called, recorded or printed; in both cases the file is passed on exactly
once. -/
theorem reportFailures_calls_selected_formatter_once
    (env : Env) (reporter : Reporter) (options : Options) (st : Stage) (file : File)
    (failures : List Failure) (fmt : Formatter)
    (hl : Linted env file failures) (hs : selectedFormatter reporter = some fmt)
    (hf : ∀ kind id, reporter = .function kind id →
      objectPrototypeToString reporter = "[object Function]") :
    (1 ≤ failures.length →
      ∃ lines : List String,
        reportFailures env reporter options st file
          = .ok { errorFiles := st.errorFiles ++ [file],
                  allFailures := st.allFailures ++ failures,
                  out := st.out ++ [Event.call fmt failures file options]
                    ++ lines.map Event.log ++ [Event.emitData file] })
    ∧ (failures.length = 0 →
        reportFailures env reporter options st file
          = .ok { errorFiles := st.errorFiles,
                  allFailures := st.allFailures,
                  out := st.out ++ [Event.emitData file] }) := by
  constructor
  · intro hN
    have hne : failures ≠ [] := List.length_pos.mp hN
    obtain ⟨lines, h⟩ :=
      reportFailures_of_failures env reporter options st file failures hl hne
    refine ⟨lines, ?_⟩
    rw [h, invokedFormatter_of_selected reporter fmt hs hf]
    rfl
  · intro hN
    have hnil : failures = [] := List.length_eq_zero.mp hN
    subst hnil
    exact reportFailures_of_no_failures env reporter options st file hl

theorem reportFailures_calls_selected_formatter_once_witness :
    (∃ lines : List String,
        reportFailures sampleEnv (.str "prose") { emitError := .bool true } Stage.init sampleFileB
          = .ok { errorFiles := Stage.init.errorFiles ++ [sampleFileB],
                  allFailures := Stage.init.allFailures ++ [sampleFailure],
                  out := Stage.init.out
                    ++ [Event.call .proseReporter [sampleFailure] sampleFileB
                          { emitError := .bool true }]
                    ++ lines.map Event.log ++ [Event.emitData sampleFileB] })
    ∧ (∃ lines : List String,
        reportFailures sampleEnv (.function .plain 7) { emitError := .bool true } Stage.init
            sampleFileB
          = .ok { errorFiles := Stage.init.errorFiles ++ [sampleFileB],
                  allFailures := Stage.init.allFailures ++ [sampleFailure],
                  out := Stage.init.out
                    ++ [Event.call (.custom 7) [sampleFailure] sampleFileB
                          { emitError := .bool true }]
                    ++ lines.map Event.log ++ [Event.emitData sampleFileB] })
    ∧ reportFailures sampleEnv (.str "prose") { emitError := .bool true } Stage.init sampleFileA
      = .ok { errorFiles := [], allFailures := [], out := [.emitData sampleFileA] } :=
  ⟨(reportFailures_calls_selected_formatter_once sampleEnv (.str "prose")
      { emitError := .bool true } Stage.init sampleFileB [sampleFailure] .proseReporter
      ⟨_, rfl, rfl⟩ rfl (fun _ _ h => (by cases h))).1 (by decide),
   (reportFailures_calls_selected_formatter_once sampleEnv (.function .plain 7)
      { emitError := .bool true } Stage.init sampleFileB [sampleFailure] (.custom 7)
      ⟨_, rfl, rfl⟩ rfl (fun _ _ _ => (by decide))).1 (by decide),
   (reportFailures_calls_selected_formatter_once sampleEnv (.str "prose")
      { emitError := .bool true } Stage.init sampleFileA [] .proseReporter
      ⟨_, rfl, rfl⟩ rfl (fun _ _ h => (by cases h))).2 rfl⟩

/-- C7 (the code departs from it): a file with no contents leaves the Linting
Stage unchanged, with no lint result attached; the Reporting Stage then reads
`file.tslint.output` of the absent result, which throws a `TypeError`: for
every reporter and every options bundle the write raises the exception, the
file is not passed on, and a run over that single file ends in the exception
with neither a `data` nor an `end` event. -/
theorem report_null_file_throws
    (env : Env) (pluginOptions : Option PluginOptions) (reporter : Reporter)
    (options : Option Options) (st : Stage) (path relative : String) :
    (tslintPlugin env pluginOptions
        { path := path, relative := relative, contents := .null, tslint := none }).file
      = { path := path, relative := relative, contents := .null, tslint := none }
    ∧ reportFailures env reporter (defaultOptions options) st
        { path := path, relative := relative, contents := .null, tslint := none }
      = .error .typeError
    ∧ report env reporter options
        [{ path := path, relative := relative, contents := .null, tslint := none }]
      = .error .typeError := by
  refine ⟨?_, ?_, ?_⟩
  · simp [tslintPlugin, File.isNull]
  · simp [reportFailures]
  · simp [report, writeAll, reportFailures]


/-! ## Engine options and surfaced errors -/

/-- C5 as stated fails: with the stage option `rulesDirectory` set to the
empty string, the engine is called with `rulesDirectory: null`, not with the
stage option. -/
theorem engine_gets_stated_options_counterexample :
    tslintPlugin sampleEnv
        (some { configuration := none, rulesDirectory := some (.str "") }) sampleBufferFile
      = { trace :=
            [ .loaderFor none "/src/a.ts"
            , .engine "a.ts" "x"
                { formatter := "json", configuration := some { rules := [] },
                  rulesDirectory := none, formattersDirectory := none }
            , .cb none (some { sampleBufferFile with tslint := some { output := "[]" } }) ]
          file := { sampleBufferFile with tslint := some { output := "[]" } } }
    ∧ statedEngineOptions
          (some { configuration := none, rulesDirectory := some (.str "") }) { rules := [] }
        = { formatter := "json", configuration := some { rules := [] },
            rulesDirectory := some (.str ""), formattersDirectory := none }
    ∧ ¬ EngineGetsStatedOptions := by
  refine ⟨rfl, rfl, ?_⟩
  intro h
  have hmem := h sampleEnv
    (some { configuration := none, rulesDirectory := some (.str "") }) sampleBufferFile
    [120] { rules := [] } rfl rfl
  revert hmem
  decide

/-- C5 (amended): for every file with buffer contents whose configuration
resolves without error to `c`, the Linting Stage calls the resolver, then the
engine exactly once with the relative path of the file, its contents decoded
as UTF-8 and the options `formatter: json`, `configuration: c`,
`rulesDirectory`: the stage option when it is a non-empty string or an array
and null when it is absent or the empty string, `formattersDirectory: null`;
it attaches the result of the engine to the file and calls back exactly once
with no error and that file. -/
theorem lint_buffer_file_calls_engine_once
    (env : Env) (pluginOptions : Option PluginOptions) (file : File)
    (bytes : List Nat) (c : Configuration)
    (hbuf : file.contents = .buffer bytes)
    (hres : env.loaderFor (pluginOptions.bind fun o => o.configuration) file.path
      = { error := none, fileopts := some c }) :
    tslintPlugin env pluginOptions file
      = { trace :=
            [ .loaderFor (pluginOptions.bind fun o => o.configuration) file.path
            , .engine file.relative (env.toStringUtf8 bytes)
                (passedEngineOptions pluginOptions c)
            , .cb none (some { file with
                tslint := some (env.lint file.relative (env.toStringUtf8 bytes)
                  (passedEngineOptions pluginOptions c)) }) ]
          file := { file with
            tslint := some (env.lint file.relative (env.toStringUtf8 bytes)
              (passedEngineOptions pluginOptions c)) } } := by
  have hopts : ∀ r : Option RulesDirectory,
      rulesDirectoryOrNull r
        = (match r with
            | some (.str s) => if s = "" then none else some (.str s)
            | some (.arr dirs) => some (.arr dirs)
            | none => none) := by
    intro r
    match r with
    | none => rfl
    | some (.arr dirs) => rfl
    | some (.str s) => by_cases hs : s = "" <;> simp [rulesDirectoryOrNull, RulesDirectory.truthy, hs]
  cases pluginOptions with
  | none =>
    simp only [Option.bind] at hres
    simp [tslintPlugin, File.isNull, File.isStream, hbuf, hres, passedEngineOptions,
      rulesDirectoryOrNull]
  | some o =>
    simp only [Option.bind] at hres
    simp [tslintPlugin, File.isNull, File.isStream, hbuf, hres, passedEngineOptions, hopts]

theorem lint_buffer_file_calls_engine_once_witness :
    tslintPlugin sampleEnv
        (some { configuration := none, rulesDirectory := some (.arr ["rules"]) })
        sampleBufferFile
      = { trace :=
            [ .loaderFor none "/src/a.ts"
            , .engine "a.ts" "x"
                { formatter := "json", configuration := some { rules := [] },
                  rulesDirectory := some (.arr ["rules"]), formattersDirectory := none }
            , .cb none (some { sampleBufferFile with tslint := some { output := "[]" } }) ]
          file := { sampleBufferFile with tslint := some { output := "[]" } } } :=
  lint_buffer_file_calls_engine_once sampleEnv
    (some { configuration := none, rulesDirectory := some (.arr ["rules"]) })
    sampleBufferFile [120] { rules := [] } rfl rfl

/-- C10 as stated fails: for a file whose configuration does not resolve,
the Linting Stage calls back with the error of the resolver, which is not a
`PluginError`. -/
theorem surfaced_errors_are_plugin_errors_counterexample :
    tslintPlugin sampleEnv none sampleBadConfigFile
      = { trace :=
            [ .loaderFor none "/bad/x.ts"
            , .cb (some (.other "SyntaxError" "Unexpected token in tslint.json")) none ]
          file := sampleBadConfigFile }
    ∧ ¬ SurfacedErrorsArePluginErrors := by
  refine ⟨rfl, ?_⟩
  intro h
  obtain ⟨message, hm⟩ := h.1 sampleEnv none sampleBadConfigFile
    (.other "SyntaxError" "Unexpected token in tslint.json") none (by decide)
  cases hm

/-- C10 (amended): an error that the Linting Stage passes to the callback is
either the `PluginError` with tag `gulp-tslint` and message
`Streaming not supported`, for a file whose contents are a stream, or, for a
file with buffer contents, the error of the resolver itself, unchanged; every
`error` event of the Reporting Stage carries a `PluginError` with the tag
`gulp-tslint` and a message string. -/
theorem surfaced_errors
    (env : Env) :
    (∀ (pluginOptions : Option PluginOptions) (file : File) (e : JsError) (f : Option File),
      LintEvent.cb (some e) f ∈ (tslintPlugin env pluginOptions file).trace →
      (file.isStream = true ∧ e = .pluginError "gulp-tslint" "Streaming not supported")
      ∨ (file.isNull = false ∧ file.isStream = false
          ∧ (env.loaderFor (pluginOptions.bind fun o => o.configuration) file.path).error
              = some e))
    ∧ (∀ (reporter : Reporter) (options : Option Options) (files : List File)
        (st : Stage) (e : JsError),
        report env reporter options files = .ok st →
        Event.emitError e ∈ st.out →
        ∃ message, e = .pluginError "gulp-tslint" message) := by
  constructor
  · intro pluginOptions file e f hmem
    by_cases hnull : file.isNull = true
    · simp [tslintPlugin, hnull] at hmem
    · by_cases hstream : file.isStream = true
      · simp [tslintPlugin, hnull, hstream] at hmem
        exact Or.inl ⟨hstream, hmem.1⟩
      · right
        refine ⟨by simpa using hnull, by simpa using hstream, ?_⟩
        cases pluginOptions with
        | none =>
          show (env.loaderFor none file.path).error = some e
          cases herr : (env.loaderFor none file.path).error with
          | none => simp [tslintPlugin, hnull, hstream, herr] at hmem
          | some err =>
            simp [tslintPlugin, hnull, hstream, herr] at hmem
            rw [hmem.1]
        | some o =>
          show (env.loaderFor o.configuration file.path).error = some e
          cases herr : (env.loaderFor o.configuration file.path).error with
          | none => simp [tslintPlugin, hnull, hstream, herr] at hmem
          | some err =>
            simp [tslintPlugin, hnull, hstream, herr] at hmem
            rw [hmem.1]
  · intro reporter options files st e hr he
    have hw : ∃ st0, writeAll env reporter (defaultOptions options) Stage.init files = .ok st0 := by
      unfold report at hr
      cases hw : writeAll env reporter (defaultOptions options) Stage.init files with
      | error err => simp [hw] at hr
      | ok st0 => exact ⟨st0, rfl⟩
    obtain ⟨st0, hw⟩ := hw
    obtain ⟨fss, hl⟩ := linted_of_writeAll_ok env reporter (defaultOptions options) files _ _ hw
    exact ⟨_, error_event_of_report env reporter options files fss hl st hr e he⟩

theorem surfaced_errors_witness :
    ((sampleStreamFile.isStream = true
        ∧ JsError.pluginError "gulp-tslint" "Streaming not supported"
            = .pluginError "gulp-tslint" "Streaming not supported")
      ∨ (sampleStreamFile.isNull = false ∧ sampleStreamFile.isStream = false
          ∧ (sampleEnv.loaderFor none sampleStreamFile.path).error
              = some (.pluginError "gulp-tslint" "Streaming not supported")))
    ∧ (∃ message, JsError.pluginError "gulp-tslint" "Failed to lint: b.ts[1, 5]: no any."
        = .pluginError "gulp-tslint" message) :=
  ⟨(surfaced_errors sampleEnv).1 none sampleStreamFile
      (.pluginError "gulp-tslint" "Streaming not supported") none (by decide),
   (surfaced_errors sampleEnv).2 (.str "prose") none [sampleFileA, sampleFileB]
      { errorFiles := [sampleFileB]
        allFailures := [sampleFailure]
        out := [ .emitData sampleFileA
               , .call .proseReporter [sampleFailure] sampleFileB { emitError := .bool true }
               , .log "b.ts[1, 5]: no any"
               , .emitData sampleFileB
               , .emitError (.pluginError "gulp-tslint" "Failed to lint: b.ts[1, 5]: no any.") ] }
      (.pluginError "gulp-tslint" "Failed to lint: b.ts[1, 5]: no any.")
      rfl (by simp)⟩


end GulpTslint
